import Mathlib

/-!
Shallow embedding of the vector classes of `vectors_edu.py` (and the
identical base/3D classes of `vectors_space.py`).

Components are modelled as exact rationals (`ℚ`); Python floats become the
corresponding rationals, so two numbers are `==` in Python exactly when the
rationals are equal.  The Euclidean norm, which the source computes as
`sum(val ** 2 for val in vars(self).values()) ** 0.5`, is modelled as
`Real.sqrt` of the (rational) sum of squares.

`vars(self)` on an instance returns its `__dict__` in attribute-insertion
order.  For `R2Vector(x, y)` that is `x, y`; for `R3Vector` it is `x, y, z`
(the base constructor inserts `x, y`, then the subclass inserts `z`); for
`R4Vector` it is `x, y, z, w`.  `R5Vector` and `R6Vector` use
`__slots__ = ('z','w','v')` resp. `('z','w','v','u')`, so their instance
`__dict__` holds only the inherited `x, y`; the slotted attributes live
outside it.  Each generic base method is therefore specialised below to the
concrete attribute list that `vars(self)` (or `__slots__`) enumerates for
that class.

A binary dunder that hits an operand of the wrong type returns
`NotImplemented`; we model a dunder's result as `Option` with `none` for
`NotImplemented`, and reproduce Python's dispatch (try the reflected dunder,
then fall back) explicitly where a claim needs it.
-/

/-- `class R2Vector` of `vectors_edu.py` (same fields in `vectors_space.py`):
`self.x = x; self.y = y`. -/
structure R2Vector where
  x : ℚ
  y : ℚ
deriving DecidableEq

/-- `class R3Vector(R2Vector)`: base constructor sets `x, y`, then `self.z = z`. -/
structure R3Vector where
  x : ℚ
  y : ℚ
  z : ℚ
deriving DecidableEq

/-- `class R4Vector(R2Vector)`: base constructor sets `x, y`, then `z`, `w`. -/
structure R4Vector where
  x : ℚ
  y : ℚ
  z : ℚ
  w : ℚ
deriving DecidableEq

/-- `class R5Vector(R2Vector)` with `__slots__ = ('z', 'w', 'v')`:
`x, y` live in the inherited instance `__dict__`, `z, w, v` in slots. -/
structure R5Vector where
  x : ℚ
  y : ℚ
  z : ℚ
  w : ℚ
  v : ℚ
deriving DecidableEq

/-- `class R6Vector(R2Vector)` with `__slots__ = ('z', 'w', 'v', 'u')`. -/
structure R6Vector where
  x : ℚ
  y : ℚ
  z : ℚ
  w : ℚ
  v : ℚ
  u : ℚ
deriving DecidableEq

namespace R2Vector

/-- Sum of squares of the attributes `vars(self)` enumerates (`x, y`);
the radicand of `R2Vector.norm`. -/
def normSq (a : R2Vector) : ℚ := a.x ^ 2 + a.y ^ 2

/-- `R2Vector.norm`: `sum(val ** 2 for val in vars(self).values()) ** 0.5`. -/
noncomputable def norm (a : R2Vector) : ℝ := Real.sqrt (normSq a : ℚ)

/-- `R2Vector.__add__` on two operands of the same type:
`{i: getattr(self, i) + getattr(other, i) for i in vars(self)}` with
`vars(self) = ('x', 'y')`, then `self.__class__(**kwargs)`. -/
def add (a b : R2Vector) : R2Vector := ⟨a.x + b.x, a.y + b.y⟩

/-- `R2Vector.__sub__` on two operands of the same type. -/
def sub (a b : R2Vector) : R2Vector := ⟨a.x - b.x, a.y - b.y⟩

/-- `R2Vector.__mul__`, scalar branch: `{i: getattr(self, i) * other}`. -/
def smul (a : R2Vector) (k : ℚ) : R2Vector := ⟨a.x * k, a.y * k⟩

/-- `R2Vector.__mul__`, dot-product branch (`type(self) == type(other)`):
`sum(getattr(self, i) * getattr(other, i) for i in vars(self))`. -/
def dot (a b : R2Vector) : ℚ := a.x * b.x + a.y * b.y

/-- `R2Vector.__eq__` on two operands of the same type:
`all(getattr(self, i) == getattr(other, i) for i in vars(self))`. -/
def beqAttrs (a b : R2Vector) : Bool := a.x == b.x && a.y == b.y

/-- `R2Vector.__ne__`: `not self == other` (same-type case). -/
def bneAttrs (a b : R2Vector) : Bool := ! beqAttrs a b

end R2Vector

namespace R3Vector

/-- Sum of squares over `vars(self) = ('x', 'y', 'z')`. -/
def normSq (a : R3Vector) : ℚ := a.x ^ 2 + a.y ^ 2 + a.z ^ 2

/-- Inherited `R2Vector.norm`, generic over `vars(self)`. -/
noncomputable def norm (a : R3Vector) : ℝ := Real.sqrt (normSq a : ℚ)

/-- Inherited `R2Vector.__add__` specialised to `vars(self) = ('x','y','z')`. -/
def add (a b : R3Vector) : R3Vector := ⟨a.x + b.x, a.y + b.y, a.z + b.z⟩

/-- Inherited `R2Vector.__sub__`. -/
def sub (a b : R3Vector) : R3Vector := ⟨a.x - b.x, a.y - b.y, a.z - b.z⟩

/-- Inherited `R2Vector.__mul__`, scalar branch. -/
def smul (a : R3Vector) (k : ℚ) : R3Vector := ⟨a.x * k, a.y * k, a.z * k⟩

/-- Inherited `R2Vector.__mul__`, dot-product branch. -/
def dot (a b : R3Vector) : ℚ := a.x * b.x + a.y * b.y + a.z * b.z

/-- Inherited `R2Vector.__eq__` over `vars(self)`. -/
def beqAttrs (a b : R3Vector) : Bool := a.x == b.x && a.y == b.y && a.z == b.z

/-- `R3Vector.cross` (identical in the two source files):
`x = self.y*other.z - self.z*other.y`, `y = self.z*other.x - self.x*other.z`,
`z = self.x*other.y - self.y*other.x`, for operands of the same type. -/
def cross (a b : R3Vector) : R3Vector :=
  ⟨a.y * b.z - a.z * b.y, a.z * b.x - a.x * b.z, a.x * b.y - a.y * b.x⟩

end R3Vector

namespace R4Vector

/-- Sum of squares over `vars(self) = ('x', 'y', 'z', 'w')`. -/
def normSq (a : R4Vector) : ℚ := a.x ^ 2 + a.y ^ 2 + a.z ^ 2 + a.w ^ 2

/-- Inherited `R2Vector.norm`, generic over `vars(self)`. -/
noncomputable def norm (a : R4Vector) : ℝ := Real.sqrt (normSq a : ℚ)

/-- Inherited `R2Vector.__add__` over `vars(self) = ('x','y','z','w')`. -/
def add (a b : R4Vector) : R4Vector :=
  ⟨a.x + b.x, a.y + b.y, a.z + b.z, a.w + b.w⟩

/-- Inherited `R2Vector.__sub__`. -/
def sub (a b : R4Vector) : R4Vector :=
  ⟨a.x - b.x, a.y - b.y, a.z - b.z, a.w - b.w⟩

/-- Inherited `R2Vector.__mul__`, dot-product branch. -/
def dot (a b : R4Vector) : ℚ := a.x * b.x + a.y * b.y + a.z * b.z + a.w * b.w

/-- Inherited `R2Vector.__eq__` over `vars(self)`. -/
def beqAttrs (a b : R4Vector) : Bool :=
  a.x == b.x && a.y == b.y && a.z == b.z && a.w == b.w

end R4Vector

namespace R5Vector

/-- `R5Vector.__slots__ = ('z', 'w', 'v')` — the source drops `x, y` from the
slot list (they live in the inherited instance `__dict__`). -/
def slots : List String := ["z", "w", "v"]

/-- `getattr(self, name)` for the component names that occur in this class's
method bodies (`'x'..'v'`; other names would raise `AttributeError`). -/
def attr (a : R5Vector) (name : String) : Option ℚ :=
  if name = "x" then some a.x
  else if name = "y" then some a.y
  else if name = "z" then some a.z
  else if name = "w" then some a.w
  else if name = "v" then some a.v
  else none

/-- `R5Vector.__init__(self, *, x, y, z, w, v)` invoked as
`self.__class__(**kwargs)`: every one of the five keyword-only parameters
must be present in `kwargs`, otherwise Python raises
`TypeError: missing required keyword-only argument` (modelled as `none`). -/
def fromKwargs (kw : List (String × ℚ)) : Option R5Vector :=
  match kw.lookup "x", kw.lookup "y", kw.lookup "z", kw.lookup "w",
      kw.lookup "v" with
  | some x, some y, some z, some w, some v => some ⟨x, y, z, w, v⟩
  | _, _, _, _, _ => none

/-- Sum of squares in `R5Vector.norm`, which the source overrides to list all
five components explicitly:
`sqrt(self.x**2 + self.y**2 + self.z**2 + self.w**2 + self.v**2)`. -/
def normSq (a : R5Vector) : ℚ :=
  a.x ^ 2 + a.y ^ 2 + a.z ^ 2 + a.w ^ 2 + a.v ^ 2

/-- `R5Vector.norm`. -/
noncomputable def norm (a : R5Vector) : ℝ := Real.sqrt (normSq a : ℚ)

/-- `R5Vector.__add__`, same-type case: `component_names = self.__slots__`
(only `z, w, v`), `summed_values = {name: getattr(self, name) +
getattr(other, name) for name in component_names}`, then
`self.__class__(**summed_values)` — whose constructor also requires `x, y`. -/
def add (a b : R5Vector) : Option R5Vector :=
  fromKwargs (slots.map fun n => (n, (attr a n).getD 0 + (attr b n).getD 0))

/-- `R5Vector.__sub__`, same-type case: identical pattern to `__add__`. -/
def sub (a b : R5Vector) : Option R5Vector :=
  fromKwargs (slots.map fun n => (n, (attr a n).getD 0 - (attr b n).getD 0))

/-- `R5Vector.__mul__`, scalar branch: `scaled_values = {name:
getattr(self, name) * other for name in self.__slots__}`, then
`self.__class__(**scaled_values)`. -/
def smul (a : R5Vector) (k : ℚ) : Option R5Vector :=
  fromKwargs (slots.map fun n => (n, (attr a n).getD 0 * k))

/-- `R5Vector.__mul__`, dot-product branch (`type(self) == type(other)`):
`sum(getattr(self, name) * getattr(other, name) for name in self.__slots__)`
— the sum ranges over the slot names `z, w, v` only. -/
def dot (a b : R5Vector) : ℚ :=
  (slots.map fun n => (attr a n).getD 0 * (attr b n).getD 0).sum

/-- `R5Vector` does not override `__eq__`; the inherited `R2Vector.__eq__`
iterates `vars(self)`, i.e. the instance `__dict__`, which for a slotted
subclass holds only the base-initialised `x, y`. -/
def beqAttrs (a b : R5Vector) : Bool := a.x == b.x && a.y == b.y

/-- Inherited `R2Vector.__ne__`: `not self == other`. -/
def bneAttrs (a b : R5Vector) : Bool := ! beqAttrs a b

end R5Vector

namespace R6Vector

/-- `R6Vector.__slots__ = ('z', 'w', 'v', 'u')`. -/
def slots : List String := ["z", "w", "v", "u"]

/-- `component_names = ('x', 'y') + self.__slots__`, the explicit full list
every reimplemented `R6Vector` operation iterates over. -/
def componentNames : List String := ["x", "y"] ++ slots

/-- Sum of squares in `R6Vector.norm` over
`(self.x, self.y, self.z, self.w, self.v, self.u)`. -/
def normSq (a : R6Vector) : ℚ :=
  a.x ^ 2 + a.y ^ 2 + a.z ^ 2 + a.w ^ 2 + a.v ^ 2 + a.u ^ 2

/-- `R6Vector.norm`. -/
noncomputable def norm (a : R6Vector) : ℝ := Real.sqrt (normSq a : ℚ)

/-- `R6Vector.__add__`, same-type case, over
`component_names = ('x', 'y') + self.__slots__` — all six components. -/
def add (a b : R6Vector) : R6Vector :=
  ⟨a.x + b.x, a.y + b.y, a.z + b.z, a.w + b.w, a.v + b.v, a.u + b.u⟩

/-- `R6Vector.__sub__`, same-type case. -/
def sub (a b : R6Vector) : R6Vector :=
  ⟨a.x - b.x, a.y - b.y, a.z - b.z, a.w - b.w, a.v - b.v, a.u - b.u⟩

/-- `R6Vector.__mul__`, dot-product branch, over all six components. -/
def dot (a b : R6Vector) : ℚ :=
  a.x * b.x + a.y * b.y + a.z * b.z + a.w * b.w + a.v * b.v + a.u * b.u

/-- `R6Vector.__eq__`, same-type case: `all(getattr(self, name) ==
getattr(other, name) for name in component_names)` over all six names. -/
def beqAttrs (a b : R6Vector) : Bool :=
  a.x == b.x && a.y == b.y && a.z == b.z && a.w == b.w && a.v == b.v &&
    a.u == b.u

/-- `dict_attrs = getattr(obj, "__dict__", {})` inside `R6Vector.show_attr`:
for any vector inheriting from `R2Vector` the instance `__dict__` holds
`x, y` in insertion order. -/
def dictAttrs (a : R6Vector) : List (String × ℚ) := [("x", a.x), ("y", a.y)]

/-- `slot_attrs = {name: getattr(obj, name) for name in
getattr(obj, "__slots__", ()) if name != "__dict__"}` for an `R6Vector`. -/
def slotAttrs (a : R6Vector) : List (String × ℚ) :=
  [("z", a.z), ("w", a.w), ("v", a.v), ("u", a.u)]

/-- `R6Vector.show_attr(obj)`: `{**dict_attrs, **slot_attrs}`.  The two key
sets are disjoint here, so the dict merge is concatenation in order: the
`__dict__` pairs first, then the slot pairs. -/
def show_attr (a : R6Vector) : List (String × ℚ) := dictAttrs a ++ slotAttrs a

end R6Vector

/-- A runtime value as seen by the binary dunders: one constructor per
concrete vector class plus the non-vector operands the demo scripts use
(`int`/`float` scalars, strings). -/
inductive PyObj where
  | r2 : R2Vector → PyObj
  | r3 : R3Vector → PyObj
  | r4 : R4Vector → PyObj
  | r5 : R5Vector → PyObj
  | r6 : R6Vector → PyObj
  | num : ℚ → PyObj
  | str : String → PyObj
deriving DecidableEq

/-- The concrete runtime type of a value, as compared by
`type(self) != type(other)` in every vector dunder. -/
inductive PyTag where
  | tR2 | tR3 | tR4 | tR5 | tR6 | tNum | tStr
deriving DecidableEq

namespace PyObj

/-- `type(obj)`. -/
def tag : PyObj → PyTag
  | r2 _ => .tR2
  | r3 _ => .tR3
  | r4 _ => .tR4
  | r5 _ => .tR5
  | r6 _ => .tR6
  | num _ => .tNum
  | str _ => .tStr

/-- Whether the value is an instance of one of the five vector classes. -/
def isVector : PyObj → Bool
  | r2 _ | r3 _ | r4 _ | r5 _ | r6 _ => true
  | num _ | str _ => false

/-- `type(a).__eq__(a, b)` with `none` for `NotImplemented`.  Every vector
class's `__eq__` (the inherited `R2Vector.__eq__`, or `R6Vector.__eq__`)
starts with `if type(self) != type(other): return NotImplemented`; numbers
and strings likewise return `NotImplemented` against a vector operand. -/
def dunderEq : PyObj → PyObj → Option Bool
  | r2 a, r2 b => some (R2Vector.beqAttrs a b)
  | r3 a, r3 b => some (R3Vector.beqAttrs a b)
  | r4 a, r4 b => some (R4Vector.beqAttrs a b)
  | r5 a, r5 b => some (R5Vector.beqAttrs a b)
  | r6 a, r6 b => some (R6Vector.beqAttrs a b)
  | num a, num b => some (a == b)
  | str a, str b => some (a == b)
  | _, _ => none

/-- `type(a).__lt__(a, b)` with `none` for `NotImplemented`.  Both
`R2Vector.__lt__` (inherited by `R3/R4/R5Vector`) and `R6Vector.__lt__`
compare `self.norm() < other.norm()` after the type check; since
`Real.sqrt` is strictly monotone on nonnegative reals, comparing the norms
equals comparing the rational radicands (`sqrt_lt_iff_normSq` below). -/
def dunderLt : PyObj → PyObj → Option Bool
  | r2 a, r2 b => some (decide (R2Vector.normSq a < R2Vector.normSq b))
  | r3 a, r3 b => some (decide (R3Vector.normSq a < R3Vector.normSq b))
  | r4 a, r4 b => some (decide (R4Vector.normSq a < R4Vector.normSq b))
  | r5 a, r5 b => some (decide (R5Vector.normSq a < R5Vector.normSq b))
  | r6 a, r6 b => some (decide (R6Vector.normSq a < R6Vector.normSq b))
  | num a, num b => some (decide (a < b))
  | str a, str b => some (decide (a < b))
  | _, _ => none

/-- `type(b).__gt__(b, a)`, the reflected method Python tries when
`__lt__` returns `NotImplemented`.  `R2Vector.__gt__` is inherited by every
vector subclass (including `R6Vector`, which does not override it) and
compares norms after the same type check. -/
def dunderGt : PyObj → PyObj → Option Bool
  | r2 a, r2 b => some (decide (R2Vector.normSq a > R2Vector.normSq b))
  | r3 a, r3 b => some (decide (R3Vector.normSq a > R3Vector.normSq b))
  | r4 a, r4 b => some (decide (R4Vector.normSq a > R4Vector.normSq b))
  | r5 a, r5 b => some (decide (R5Vector.normSq a > R5Vector.normSq b))
  | r6 a, r6 b => some (decide (R6Vector.normSq a > R6Vector.normSq b))
  | num a, num b => some (decide (a > b))
  | str a, str b => some (decide (a > b))
  | _, _ => none

/-- `a == b` as evaluated by Python: try `type(a).__eq__(a, b)`, then the
reflected `type(b).__eq__(b, a)`; if both return `NotImplemented`, fall back
to identity, which is `False` for the distinct objects considered here. -/
def pyEq (a b : PyObj) : Bool :=
  match dunderEq a b with
  | some r => r
  | none =>
    match dunderEq b a with
    | some r => r
    | none => false

/-- `a < b` as evaluated by Python: try `type(a).__lt__(a, b)`, then the
reflected `type(b).__gt__(b, a)`; if both return `NotImplemented`, Python
raises `TypeError` — the unsupported-operation outcome, modelled `none`. -/
def pyLt (a b : PyObj) : Option Bool :=
  match dunderLt a b with
  | some r => some r
  | none => dunderGt b a

end PyObj

/-- Comparing norms is comparing the rational sums of squares: justifies the
`normSq` comparisons inside `PyObj.dunderLt`/`dunderGt`. -/
theorem sqrt_lt_iff_normSq (p q : ℚ) (hp : 0 ≤ p) :
    Real.sqrt (p : ℚ) < Real.sqrt (q : ℚ) ↔ p < q := by
  rw [Real.sqrt_lt_sqrt_iff (by exact_mod_cast hp)]
  exact_mod_cast Iff.rfl

/-- C1: the claim says `R5Vector` addition and subtraction return the
component-wise result over the full component list `x, y, z, w, v` and never
fail for same-typed operands.  The code instead builds its keyword arguments
from `self.__slots__ = ('z', 'w', 'v')` alone and then calls the
constructor, which requires `x` and `y` as well, so every same-typed
`R5Vector` addition or subtraction raises `TypeError` (here: `none`) —
including at the concrete operands `(1,2,3,4,5)` and `(1,1,1,1,1)`. -/
theorem C1_r5_add_sub_fail :
    (∀ a b : R5Vector, R5Vector.add a b = none ∧ R5Vector.sub a b = none) ∧
    R5Vector.add ⟨1, 2, 3, 4, 5⟩ ⟨1, 1, 1, 1, 1⟩ = none ∧
    R5Vector.sub ⟨1, 2, 3, 4, 5⟩ ⟨1, 1, 1, 1, 1⟩ = none :=
  ⟨fun _ _ => ⟨rfl, rfl⟩, rfl, rfl⟩

/-- C2: the claim says `R5Vector` scalar multiplication scales all five
components and the dot product sums the products of all five.  The code's
scalar branch iterates `__slots__ = ('z', 'w', 'v')` and then calls the
constructor without `x, y`, raising `TypeError` (`none`); the dot branch
sums the products over those three slot names only, so the dot product of
`(1,1,0,0,0)` with itself is `0` where the claim requires
`1*1 + 1*1 = 2`. -/
theorem C2_r5_mul_bug :
    (∀ (a : R5Vector) (k : ℚ), R5Vector.smul a k = none) ∧
    (∀ a b : R5Vector,
      R5Vector.dot a b = a.z * b.z + a.w * b.w + a.v * b.v) ∧
    R5Vector.dot ⟨1, 1, 0, 0, 0⟩ ⟨1, 1, 0, 0, 0⟩ = 0 := by
  have hdot : ∀ a b : R5Vector,
      R5Vector.dot a b = a.z * b.z + a.w * b.w + a.v * b.v := by
    intro a b
    simp [R5Vector.dot, R5Vector.slots, R5Vector.attr]
    ring
  exact ⟨fun _ _ => rfl, hdot, by rw [hdot]; norm_num⟩

/-- C3 (as stated): the claim's concrete output `(4.75, -3.5, 3.5)` is wrong
in its `z` component — the code computes `z = x*oy - y*ox = 2*1.25 - 3*0.5
= 1.0`, not `3.5`. -/
theorem C3_counterexample :
    R3Vector.cross ⟨2, 3, 1⟩ ⟨0.5, 1.25, 2⟩ ≠
      (⟨4.75, -3.5, 3.5⟩ : R3Vector) := by
  intro h
  have hz := congrArg R3Vector.z h
  norm_num [R3Vector.cross] at hz

/-- C3 (amended): `Vector3(x=2, y=3, z=1).Cross(Vector3(x=0.5, y=1.25,
z=2))` returns the `Vector3` with `x = 4.75`, `y = -3.5`, `z = 1.0`. -/
theorem C3_cross_value :
    R3Vector.cross ⟨2, 3, 1⟩ ⟨0.5, 1.25, 2⟩ = (⟨4.75, -3.5, 1⟩ : R3Vector) := by
  simp only [R3Vector.cross, R3Vector.mk.injEq]
  norm_num

/-- C4: for a vector `a` and any value `b` of a different concrete type,
`a == b` evaluates to `False` (both `__eq__` directions return
`NotImplemented` and Python falls back to identity), while `a < b` ends in
`TypeError` (`none`), the unsupported-operation outcome. -/
theorem C4_cross_type_eq_lt (a b : PyObj) (hv : a.isVector = true)
    (hne : a.tag ≠ b.tag) :
    PyObj.pyEq a b = false ∧ PyObj.pyLt a b = none := by
  cases a <;> cases b <;>
    simp_all [PyObj.tag, PyObj.isVector, PyObj.pyEq, PyObj.pyLt,
      PyObj.dunderEq, PyObj.dunderLt, PyObj.dunderGt]

/-- Witness for C4 at `a = R2Vector(x=1, y=2)`, `b = R3Vector(x=1, y=2,
z=3)`. -/
theorem C4_witness :
    PyObj.pyEq (PyObj.r2 ⟨1, 2⟩) (PyObj.r3 ⟨1, 2, 3⟩) = false ∧
    PyObj.pyLt (PyObj.r2 ⟨1, 2⟩) (PyObj.r3 ⟨1, 2, 3⟩) = none :=
  C4_cross_type_eq_lt (PyObj.r2 ⟨1, 2⟩) (PyObj.r3 ⟨1, 2, 3⟩) (by decide)
    (by decide)

/-- C5: the add-then-subtract round trip `a.Add(b).Subtract(b) == a` holds
(under exact arithmetic) for `R2Vector`, `R3Vector`, `R4Vector` and
`R6Vector`, whose `__add__`/`__sub__` cover every component; it cannot hold
for `R5Vector`, whose `__add__` raises `TypeError` on every same-typed pair
(shown at the concrete operands `(1,2,3,4,5)` and `(1,1,1,1,1)`), so the
claim's quantification over every concrete type fails on the code. -/
theorem C5_roundtrip :
    (∀ a b : R2Vector,
      R2Vector.beqAttrs (R2Vector.sub (R2Vector.add a b) b) a = true) ∧
    (∀ a b : R3Vector,
      R3Vector.beqAttrs (R3Vector.sub (R3Vector.add a b) b) a = true) ∧
    (∀ a b : R4Vector,
      R4Vector.beqAttrs (R4Vector.sub (R4Vector.add a b) b) a = true) ∧
    (∀ a b : R6Vector,
      R6Vector.beqAttrs (R6Vector.sub (R6Vector.add a b) b) a = true) ∧
    R5Vector.add ⟨1, 2, 3, 4, 5⟩ ⟨1, 1, 1, 1, 1⟩ = none := by
  refine ⟨fun a b => ?_, fun a b => ?_, fun a b => ?_, fun a b => ?_, rfl⟩ <;>
    simp [R2Vector.beqAttrs, R2Vector.add, R2Vector.sub,
      R3Vector.beqAttrs, R3Vector.add, R3Vector.sub,
      R4Vector.beqAttrs, R4Vector.add, R4Vector.sub,
      R6Vector.beqAttrs, R6Vector.add, R6Vector.sub]

/-- C6: for each open-discipline type the norm is the square root of the sum
of the squares of every stored component, is nonnegative for every vector,
and is exactly `0` on the all-zero vector. -/
theorem C6_norm :
    (∀ a : R2Vector,
      R2Vector.norm a = Real.sqrt ((a.x ^ 2 + a.y ^ 2 : ℚ)) ∧
        0 ≤ R2Vector.norm a) ∧
    R2Vector.norm ⟨0, 0⟩ = 0 ∧
    (∀ a : R3Vector,
      R3Vector.norm a = Real.sqrt ((a.x ^ 2 + a.y ^ 2 + a.z ^ 2 : ℚ)) ∧
        0 ≤ R3Vector.norm a) ∧
    R3Vector.norm ⟨0, 0, 0⟩ = 0 ∧
    (∀ a : R4Vector,
      R4Vector.norm a =
          Real.sqrt ((a.x ^ 2 + a.y ^ 2 + a.z ^ 2 + a.w ^ 2 : ℚ)) ∧
        0 ≤ R4Vector.norm a) ∧
    R4Vector.norm ⟨0, 0, 0, 0⟩ = 0 := by
  refine ⟨fun a => ⟨rfl, Real.sqrt_nonneg _⟩, ?_,
    fun a => ⟨rfl, Real.sqrt_nonneg _⟩, ?_,
    fun a => ⟨rfl, Real.sqrt_nonneg _⟩, ?_⟩ <;>
  · simp only [R2Vector.norm, R2Vector.normSq, R3Vector.norm, R3Vector.normSq,
      R4Vector.norm, R4Vector.normSq]
    norm_num

/-- C7: for every concrete type (the generic dot product of `R2Vector`,
inherited by `R3Vector` and `R4Vector`, the slots-only dot of `R5Vector`,
and the full dot of `R6Vector`), `a.Multiply(b)` as a dot product equals
`b.Multiply(a)`. -/
theorem C7_dot_comm :
    (∀ a b : R2Vector, R2Vector.dot a b = R2Vector.dot b a) ∧
    (∀ a b : R3Vector, R3Vector.dot a b = R3Vector.dot b a) ∧
    (∀ a b : R4Vector, R4Vector.dot a b = R4Vector.dot b a) ∧
    (∀ a b : R5Vector, R5Vector.dot a b = R5Vector.dot b a) ∧
    (∀ a b : R6Vector, R6Vector.dot a b = R6Vector.dot b a) := by
  refine ⟨fun a b => ?_, fun a b => ?_, fun a b => ?_, fun a b => ?_,
    fun a b => ?_⟩ <;>
  · simp [R2Vector.dot, R3Vector.dot, R4Vector.dot, R6Vector.dot,
      R5Vector.dot, R5Vector.slots, R5Vector.attr]
    ring

/-- C8: the cross product is anti-commutative — `a.cross(b)` equals the
component-wise negation of `b.cross(a)` (negation realised as the source's
scalar multiplication by `-1`). -/
theorem C8_cross_anticomm (a b : R3Vector) :
    R3Vector.cross a b = R3Vector.smul (R3Vector.cross b a) (-1) := by
  simp only [R3Vector.cross, R3Vector.smul, R3Vector.mk.injEq]
  refine ⟨?_, ?_, ?_⟩ <;> ring

/-- C9: `show_attr` on `R6Vector(x=1, y=2, z=3, w=4, v=5, u=6)` returns all
six names mapped to their values, `__dict__` attributes (`x, y`) first and
then the declared slots, in the stable order `x, y, z, w, v, u`. -/
theorem C9_show_attr_order :
    R6Vector.show_attr ⟨1, 2, 3, 4, 5, 6⟩ =
      [("x", 1), ("y", 2), ("z", 3), ("w", 4), ("v", 5), ("u", 6)] := rfl

/-- C10: `R5Vector` inherits `R2Vector.__eq__`, which enumerates only the
instance `__dict__` (`x, y`), so two `R5Vector`s with equal `x` and `y`
compare equal — and `!=` false — whatever their `z, w, v`; the full Python
`==` dispatch agrees. -/
theorem C10_r5_eq_xy_only (a b : R5Vector) (hx : a.x = b.x)
    (hy : a.y = b.y) :
    R5Vector.beqAttrs a b = true ∧ R5Vector.bneAttrs a b = false ∧
      PyObj.pyEq (PyObj.r5 a) (PyObj.r5 b) = true := by
  simp [R5Vector.beqAttrs, R5Vector.bneAttrs, PyObj.pyEq, PyObj.dunderEq,
    hx, hy]

/-- Witness for C10 at `a = R5Vector(x=1, y=2, z=3, w=4, v=5)` and
`b = R5Vector(x=1, y=2, z=9, w=8, v=7)`, which differ in `z, w, v`. -/
theorem C10_witness :
    R5Vector.beqAttrs ⟨1, 2, 3, 4, 5⟩ ⟨1, 2, 9, 8, 7⟩ = true ∧
    R5Vector.bneAttrs ⟨1, 2, 3, 4, 5⟩ ⟨1, 2, 9, 8, 7⟩ = false ∧
    PyObj.pyEq (PyObj.r5 ⟨1, 2, 3, 4, 5⟩) (PyObj.r5 ⟨1, 2, 9, 8, 7⟩) = true :=
  C10_r5_eq_xy_only ⟨1, 2, 3, 4, 5⟩ ⟨1, 2, 9, 8, 7⟩ rfl rfl

